import Mathlib

/-!
Verification of the chat-completion streaming use case
(`internal/usecase/chatcomplitionstream/completion.go` of
luanlsr/chatservice) against its specification.

The Go code is shallowly embedded: `Execute` becomes a pure Lean function
over an explicit `Env` describing what the external collaborators (the
conversation store gateway, the entity layer borrowed from the domain
package, and the provider stream) answer during one call.  Observable
effects (store create/save calls, the provider request, the records sent
to the output sink channel) are collected in a `Trace`.
-/

namespace ChatService

/-- Bit pattern of a Go `float32`.  The use case never computes with these
values, it only copies them between records, so the embedding carries the
raw bits. -/
structure F32 where
  bits : Nat
deriving DecidableEq, Repr

/-- Modelled from the spec: the `entity.Model` record (target model
identifier and its maximum context size); the entity package is outside
`src/`. -/
structure Model where
  Name : String
  MaxToken : Int
deriving DecidableEq, Repr

/-- Modelled from the spec: the `entity.Message` record — a role
(`system`, `user`, `assistant`), textual content, and the model it was
validated under; the entity package is outside `src/`. -/
structure Message where
  Role : String
  Content : String
  Model : Model
deriving DecidableEq, Repr

/-- Modelled from the spec: the `entity.ChatConfig` record of sampling
parameters, mirroring the fields `createNewChat` populates (including the
misspelt `FrequencyePenalty` field name from the source). -/
structure ChatConfig where
  Temperature : F32
  TopP : F32
  N : Int
  Stop : List String
  MaxTokens : Int
  PresencePenalty : F32
  FrequencyePenalty : F32
  Model : Model
deriving DecidableEq, Repr

/-- Modelled from the spec: the `entity.Chat` conversation — opaque ID,
owning user identifier, ordered message sequence, configuration; the
entity package is outside `src/`. -/
structure Chat where
  ID : String
  UserID : String
  Messages : List Message
  Config : ChatConfig
deriving DecidableEq, Repr

/-- `ChatCompletionConfigInputDTO` from completion.go. -/
structure ChatCompletionConfigInputDTO where
  Model : String
  ModelMaxToken : Int
  Temperature : F32
  TopP : F32
  N : Int
  Stop : List String
  MaxTokens : Int
  PresencePenalty : F32
  FrequencyePenalty : F32
  InitialSystemMessage : String
deriving DecidableEq, Repr

/-- `ChatCompletionInputDTO` from completion.go. -/
structure ChatCompletionInputDTO where
  ChatID : String
  UserID : String
  UserMessage : String
  Config : ChatCompletionConfigInputDTO
deriving DecidableEq, Repr

/-- `ChatCompletionOutputDTO` from completion.go: also the record type of
the output sink channel. -/
structure ChatCompletionOutputDTO where
  ChatID : String
  UserID : String
  Content : String
deriving DecidableEq, Repr

/-- `openai.ChatCompletionMessage`: one entry of the provider request's
message list. -/
structure ChatCompletionMessage where
  Role : String
  Content : String
deriving DecidableEq, Repr

/-- `openai.ChatCompletionRequest` restricted to the fields `Execute`
populates at completion.go lines 91-101.  `Stream` is the streaming-mode
flag of the request. -/
structure ChatCompletionRequest where
  Model : String
  Messages : List ChatCompletionMessage
  MaxTokens : Int
  Temperature : F32
  TopP : F32
  Stop : List String
  PresencePenalty : F32
  FrequencyPenalty : F32
  Stream : Bool
deriving DecidableEq, Repr

/-- `openai.ChatCompletionStreamChoiceDelta`: the delta of one choice of a
stream fragment. -/
structure ChatDelta where
  Content : String
deriving DecidableEq, Repr

/-- `openai.ChatCompletionStreamChoice`. -/
structure ChatChoice where
  Delta : ChatDelta
deriving DecidableEq, Repr

/-- `openai.ChatCompletionStreamResponse`: one fragment received from the
provider stream, carrying a list of choices. -/
structure ChatCompletionStreamResponse where
  Choices : List ChatChoice
deriving DecidableEq, Repr

/-- One result of a `resp.Recv()` call on the provider stream: a fragment,
the clean end-of-stream signal `io.EOF`, or a receive error. -/
inductive RecvResult where
  | frag (r : ChatCompletionStreamResponse)
  | eof
  | recvErr (msg : String)
deriving DecidableEq, Repr

/-- Environment of one `Execute` call: the answers of the external
collaborators, in the order the use case consults them.  Entity-layer
outcomes (`newMessageErr`, `addMessageErr`, `newChatErr`, `freshChatID`)
are modelled from the spec, since the entity package is outside `src/`:
message construction validates role and token limits and may fail, chats
are created with a fresh opaque ID, message append may fail. -/
structure Env where
  /-- Result of `ChatGateway.FindChatByID`. -/
  findChat : Except String Chat
  /-- Validation outcome of `entity.NewMessage role content model`:
  `none` means success, `some e` the error message. -/
  newMessageErr : String → String → Model → Option String
  /-- Outcome of `chat.AddMessage msg`: `none` means success. -/
  addMessageErr : Chat → Message → Option String
  /-- Outcome of `entity.NewChat` construction itself. -/
  newChatErr : Option String
  /-- The fresh opaque ID `entity.NewChat` assigns to a new conversation. -/
  freshChatID : String
  /-- Result of `ChatGateway.CreateChat`. -/
  createChatErr : Option String
  /-- Error from `CreateChatCompletionStream` itself, if any. -/
  createStreamErr : Option String
  /-- Successive results of `resp.Recv()` on the provider stream. -/
  stream : List RecvResult
  /-- Result of `ChatGateway.SaveChat`. -/
  saveChatErr : Option String

/-- Modelled from the spec: `entity.NewMessage(role, content, model)` —
builds the message when validation (role and token limits, decided by the
environment's oracle) passes. -/
def newMessage (env : Env) (role content : String) (model : Model) :
    Except String Message :=
  match env.newMessageErr role content model with
  | some e => .error e
  | none => .ok ⟨role, content, model⟩

/-- Modelled from the spec: `chat.AddMessage(msg)` — appends the message
at the end of the conversation's sequence when the environment's oracle
reports no error. -/
def addMessage (env : Env) (chat : Chat) (msg : Message) :
    Except String Chat :=
  match env.addMessageErr chat msg with
  | some e => .error e
  | none => .ok { chat with Messages := chat.Messages ++ [msg] }

/-- `createNewChat` from completion.go lines 147-168: builds the model and
chat config from the input DTO, synthesizes the initial `system` message
from `Config.InitialSystemMessage`, and constructs the new conversation
(`entity.NewChat` is modelled from the spec: fresh opaque ID, the input's
user ID, the initial message as the only message). -/
def createNewChat (env : Env) (input : ChatCompletionInputDTO) :
    Except String Chat :=
  let model : Model := ⟨input.Config.Model, input.Config.ModelMaxToken⟩
  let chatConfig : ChatConfig :=
    ⟨input.Config.Temperature, input.Config.TopP, input.Config.N,
     input.Config.Stop, input.Config.MaxTokens, input.Config.PresencePenalty,
     input.Config.FrequencyePenalty, model⟩
  match newMessage env "system" input.Config.InitialSystemMessage model with
  | .error e => .error ("error creating initial message: " ++ e)
  | .ok initialMessage =>
    match env.newChatErr with
    | some e => .error ("error creating new chat: " ++ e)
    | none => .ok ⟨env.freshChatID, input.UserID, [initialMessage], chatConfig⟩

/-- How one `Execute` call ends: a returned output DTO, a returned error,
a Go runtime panic (the unguarded `response.Choices[0]` index on an empty
choice list), or a stall (a `Recv`/channel operation that never returns). -/
inductive ExecOutcome where
  | ok (out : ChatCompletionOutputDTO)
  | err (msg : String)
  | panicked
  | stalled
deriving DecidableEq, Repr

/-- Observable effects of one `Execute` call, in program order within each
list: chats passed to `CreateChat`, the request passed to
`CreateChatCompletionStream` (if the call was reached), the records sent
on the `uc.Stream` sink channel, and the chats passed to `SaveChat`. -/
structure Trace where
  createCalls : List Chat
  providerReq : Option ChatCompletionRequest
  emitted : List ChatCompletionOutputDTO
  saveCalls : List Chat
deriving DecidableEq, Repr

/-- Result of the drain loop of completion.go lines 109-124: clean
termination at `io.EOF` with the accumulated `fullResponse`, a receive
error, a panic from indexing `Choices[0]` on an empty choice list, or a
stall (the modelled stream has no further `Recv` result). -/
inductive LoopResult where
  | done (full : String) (emitted : List ChatCompletionOutputDTO)
  | failed (msg : String) (emitted : List ChatCompletionOutputDTO)
  | panicked (emitted : List ChatCompletionOutputDTO)
  | stalled (emitted : List ChatCompletionOutputDTO)
deriving DecidableEq, Repr

/-- The drain loop (completion.go lines 109-124).  `full` is the
`strings.Builder` content so far, `acc` the records already sent to the
sink.  A fragment whose `Choices` list is empty reproduces the Go runtime
panic of the unguarded `response.Choices[0]` access. -/
def drain (chatID userID : String) (full : String)
    (acc : List ChatCompletionOutputDTO) :
    List RecvResult → LoopResult
  | [] => .stalled acc
  | .eof :: _ => .done full acc
  | .recvErr e :: _ => .failed e acc
  | .frag r :: rest =>
    match r.Choices with
    | [] => .panicked acc
    | c :: _ =>
      let full2 := full ++ c.Delta.Content
      drain chatID userID full2 (acc ++ [⟨chatID, userID, full2⟩]) rest

/-- `Execute` from completion.go lines 54-145, embedded over `Env` with
its observable effects collected in a `Trace`.  Each branch mirrors the
corresponding Go statement, including the exact error-prefix strings and
the request literal of lines 91-101 (note `FrequencyPenalty` is populated
from `chat.Config.PresencePenalty` and `Stream` is set to `false`, exactly
as in the source). -/
def Execute (env : Env) (input : ChatCompletionInputDTO) :
    ExecOutcome × Trace :=
  let t0 : Trace := ⟨[], none, [], []⟩
  -- lines 55-71: resolve the conversation
  let step1 : Except (ExecOutcome × Trace) (Chat × Trace) :=
    match env.findChat with
    | .ok chat => .ok (chat, t0)
    | .error e =>
      if e = "chat not found" then
        match createNewChat env input with
        | .error e2 => .error (.err ("error creating new chat: " ++ e2), t0)
        | .ok chat =>
          match env.createChatErr with
          | some e3 =>
            .error (.err ("error persisting new chat: " ++ e3),
                    { t0 with createCalls := [chat] })
          | none => .ok (chat, { t0 with createCalls := [chat] })
      else
        .error (.err ("error fetching existing chat: " ++ e), t0)
  match step1 with
  | .error out => out
  | .ok (chat, t1) =>
    -- lines 72-79: append the user turn
    match newMessage env "user" input.UserMessage chat.Config.Model with
    | .error e => (.err ("error creating user message: " ++ e), t1)
    | .ok userMessage =>
      match addMessage env chat userMessage with
      | .error e => (.err ("error adding new message: " ++ e), t1)
      | .ok chat2 =>
        -- lines 81-87: translate the message history
        let messages : List ChatCompletionMessage :=
          chat2.Messages.map (fun msg => ⟨msg.Role, msg.Content⟩)
        -- lines 89-102: build the request and invoke the provider
        let request : ChatCompletionRequest :=
          ⟨chat2.Config.Model.Name, messages, chat2.Config.MaxTokens,
           chat2.Config.Temperature, chat2.Config.TopP, chat2.Config.Stop,
           chat2.Config.PresencePenalty, chat2.Config.PresencePenalty,
           false⟩
        let t2 : Trace := { t1 with providerReq := some request }
        match env.createStreamErr with
        | some e => (.err ("error creating chat completion: " ++ e), t2)
        | none =>
          -- lines 107-124: drain the stream
          match drain chat2.ID chat2.UserID "" [] env.stream with
          | .stalled acc => (.stalled, { t2 with emitted := acc })
          | .panicked acc => (.panicked, { t2 with emitted := acc })
          | .failed e acc =>
            (.err ("error straming response: " ++ e),
             { t2 with emitted := acc })
          | .done full acc =>
            let t3 : Trace := { t2 with emitted := acc }
            -- lines 126-134: append the assistant turn
            match newMessage env "assistant" full chat2.Config.Model with
            | .error e => (.err ("error creating assistant message: " ++ e), t3)
            | .ok assistant =>
              match addMessage env chat2 assistant with
              | .error e => (.err ("error adding new mesage: " ++ e), t3)
              | .ok chat3 =>
                -- lines 136-144: persist and return
                let t4 : Trace := { t3 with saveCalls := [chat3] }
                match env.saveChatErr with
                | some e => (.err ("error saving chat: " ++ e), t4)
                | none =>
                  (.ok ⟨input.ChatID, chat3.UserID, full⟩, t4)

/-! Helper notions for the theorems: concatenation of delta texts,
single-choice fragments, and the cumulative records the drain loop sends
to the sink. -/

/-- Concatenation of a list of strings in order. -/
def concatStrings : List String → String
  | [] => ""
  | d :: ds => d ++ concatStrings ds

/-- A stream fragment with a single choice whose delta text is `d` (the
shape the provider yields in the normal case). -/
def mkFrag (d : String) : RecvResult :=
  .frag ⟨[⟨⟨d⟩⟩]⟩

/-- The records the drain loop sends for delta texts `ds` when the
cumulative buffer already holds `s`. -/
def cumulOuts (chatID userID : String) : String → List String →
    List ChatCompletionOutputDTO
  | _, [] => []
  | s, d :: ds => ⟨chatID, userID, s ++ d⟩ :: cumulOuts chatID userID (s ++ d) ds

/-- The cumulative content strings for delta texts `ds` starting from
buffer `s`. -/
def cumulStrs : String → List String → List String
  | _, [] => []
  | s, d :: ds => (s ++ d) :: cumulStrs (s ++ d) ds

/-! Concrete fixtures for witnesses and counterexamples. -/

/-- Concrete model fixture. -/
def wModel : Model := ⟨"gpt-3.5", 500⟩

/-- Concrete chat configuration fixture; note `PresencePenalty` and
`FrequencyePenalty` carry different values. -/
def wConfig : ChatConfig := ⟨⟨10⟩, ⟨20⟩, 1, ["stopseq"], 50, ⟨30⟩, ⟨40⟩, wModel⟩

/-- Concrete existing conversation fixture. -/
def wChat : Chat := ⟨"chat-1", "user-1", [⟨"system", "You are helpful", wModel⟩], wConfig⟩

/-- Concrete input-DTO configuration fixture. -/
def wCfgInput : ChatCompletionConfigInputDTO :=
  ⟨"gpt-3.5", 500, ⟨10⟩, ⟨20⟩, 1, ["stopseq"], 50, ⟨30⟩, ⟨40⟩, "You are helpful"⟩

/-- Concrete input DTO fixture. -/
def wInput : ChatCompletionInputDTO := ⟨"chat-1", "user-1", "hi", wCfgInput⟩

/-- Environment fixture: the chat exists, the entity layer accepts every
message, and the provider streams the deltas "He", "llo" and then a clean
end of stream. -/
def wEnvBase : Env :=
  ⟨.ok wChat, fun _ _ _ => none, fun _ _ => none, none, "fresh-id", none, none,
   [mkFrag "He", mkFrag "llo", .eof], none⟩

/-- Environment fixture: the store lookup fails with a transport fault. -/
def wEnvFindErr : Env := { wEnvBase with findChat := .error "boom" }

/-- Environment fixture: one clean fragment, then a receive fault. -/
def wEnvRecvErr : Env :=
  { wEnvBase with stream := [mkFrag "He", .recvErr "conn reset"] }

/-- Environment fixture: lookup reports the not-found sentinel. -/
def wEnvNew : Env := { wEnvBase with findChat := .error "chat not found" }

/-- Environment fixture: the provider yields a fragment whose choice list
is empty. -/
def wEnvPanic : Env := { wEnvBase with stream := [.frag ⟨[]⟩] }

/-- True exactly on the loop result produced by the unguarded
`Choices[0]` access on an empty choice list. -/
def LoopResult.isPanicked : LoopResult → Bool
  | .panicked _ => true
  | _ => false

theorem cumulOuts_map_content (cid uid : String) :
    ∀ (ds : List String) (s : String),
      (cumulOuts cid uid s ds).map (fun r => r.Content) = cumulStrs s ds
  | [], _ => rfl
  | d :: ds, s => by
    simp only [cumulOuts, List.map_cons, cumulStrs]
    exact congrArg _ (cumulOuts_map_content cid uid ds (s ++ d))

theorem cumulOuts_length (cid uid : String) :
    ∀ (ds : List String) (s : String),
      (cumulOuts cid uid s ds).length = ds.length
  | [], _ => rfl
  | d :: ds, s => by
    simp only [cumulOuts, List.length_cons]
    exact congrArg _ (cumulOuts_length cid uid ds (s ++ d))

theorem cumulStrs_length : ∀ (ds : List String) (s : String),
    (cumulStrs s ds).length = ds.length
  | [], _ => rfl
  | d :: ds, s => by
    simp only [cumulStrs, List.length_cons]
    exact congrArg _ (cumulStrs_length ds (s ++ d))

theorem cumulStrs_head : ∀ (ds : List String) (s : String),
    0 < ds.length → (cumulStrs s ds)[0]! = s ++ ds[0]!
  | d :: ds, s, _ => by simp [cumulStrs]

theorem cumulStrs_step : ∀ (ds : List String) (s : String) (k : Nat),
    k + 1 < ds.length →
    (cumulStrs s ds)[k + 1]! = (cumulStrs s ds)[k]! ++ ds[k + 1]!
  | d :: ds, s, 0, h => by
    simp only [cumulStrs]
    have h0 : 0 < ds.length := by
      simpa [Nat.lt_iff_add_one_le] using h
    simp only [List.getElem!_cons_succ, List.getElem!_cons_zero]
    exact cumulStrs_head ds (s ++ d) h0
  | d :: ds, s, k + 1, h => by
    simp only [cumulStrs, List.getElem!_cons_succ]
    exact cumulStrs_step ds (s ++ d) k (by simpa [Nat.succ_lt_succ_iff] using h)

/-- Every record of `cumulOuts` carries the given chat and user IDs. -/
theorem cumulOuts_ids (cid uid : String) :
    ∀ (ds : List String) (s : String) (r : ChatCompletionOutputDTO),
      r ∈ cumulOuts cid uid s ds → r.ChatID = cid ∧ r.UserID = uid
  | d :: ds, s, r, h => by
    rcases List.mem_cons.mp h with h1 | h2
    · subst h1; exact ⟨rfl, rfl⟩
    · exact cumulOuts_ids cid uid ds (s ++ d) r h2

/-- Drain-loop characterization on a clean stream: single-choice fragments
for the delta texts `ds` followed by `io.EOF` yield `done` with the
concatenation of the deltas appended to the buffer, having sent the
cumulative records. -/
theorem drain_clean (cid uid : String) :
    ∀ (ds : List String) (s : String) (acc : List ChatCompletionOutputDTO)
      (rest : List RecvResult),
      drain cid uid s acc (ds.map mkFrag ++ (.eof :: rest)) =
        .done (s ++ concatStrings ds) (acc ++ cumulOuts cid uid s ds)
  | [], s, acc, rest => by
    simp [drain, concatStrings, cumulOuts, String.append_empty]
  | d :: ds, s, acc, rest => by
    simp only [List.map_cons, List.cons_append, mkFrag, drain, List.append_eq]
    have ih := drain_clean cid uid ds (s ++ d)
      (acc ++ [ChatCompletionOutputDTO.mk cid uid (s ++ d)]) rest
    rw [ih]
    simp [concatStrings, cumulOuts, String.append_assoc]

/-- Drain-loop characterization when the stream fails after the clean
fragments `ds`: the loop reports the receive error, having already sent
the cumulative records for `ds`. -/
theorem drain_recvErr (cid uid : String) :
    ∀ (ds : List String) (s : String) (acc : List ChatCompletionOutputDTO)
      (e : String) (rest : List RecvResult),
      drain cid uid s acc (ds.map mkFrag ++ (.recvErr e :: rest)) =
        .failed e (acc ++ cumulOuts cid uid s ds)
  | [], s, acc, e, rest => by
    simp [drain, cumulOuts]
  | d :: ds, s, acc, e, rest => by
    simp only [List.map_cons, List.cons_append, mkFrag, drain, List.append_eq]
    have ih := drain_recvErr cid uid ds (s ++ d)
      (acc ++ [ChatCompletionOutputDTO.mk cid uid (s ++ d)]) e rest
    rw [ih]
    simp [cumulOuts]

/-- Drain-loop characterization when a fragment with an empty choice list
arrives after the clean fragments `ds`: the unguarded index panics, having
already sent the cumulative records for `ds`. -/
theorem drain_emptyChoices (cid uid : String) :
    ∀ (ds : List String) (s : String) (acc : List ChatCompletionOutputDTO)
      (rest : List RecvResult),
      drain cid uid s acc (ds.map mkFrag ++ (.frag ⟨[]⟩ :: rest)) =
        .panicked (acc ++ cumulOuts cid uid s ds)
  | [], s, acc, rest => by
    simp [drain, cumulOuts]
  | d :: ds, s, acc, rest => by
    simp only [List.map_cons, List.cons_append, mkFrag, drain, List.append_eq]
    have ih := drain_emptyChoices cid uid ds (s ++ d)
      (acc ++ [ChatCompletionOutputDTO.mk cid uid (s ++ d)]) rest
    rw [ih]
    simp [cumulOuts]


/-- C1: for every execution in which the provider stream ends cleanly
after the fragments carrying delta texts `ds`, the `Content` of the value
returned by `Execute` equals the concatenation of the deltas in receipt
order, and the conversation handed to the store's save operation ends
with an assistant message whose content is exactly that string. -/
theorem C1_final_content_is_delta_concat
    (env : Env) (input : ChatCompletionInputDTO) (chat : Chat)
    (ds : List String)
    (hfind : env.findChat = .ok chat)
    (hmsg : ∀ r c m, env.newMessageErr r c m = none)
    (hadd : ∀ c m, env.addMessageErr c m = none)
    (hcs : env.createStreamErr = none)
    (hstream : env.stream = ds.map mkFrag ++ [.eof])
    (hsave : env.saveChatErr = none) :
    (Execute env input).1 = .ok ⟨input.ChatID, chat.UserID, concatStrings ds⟩ ∧
    (Execute env input).2.saveCalls =
      [{ chat with Messages := chat.Messages ++
          [⟨"user", input.UserMessage, chat.Config.Model⟩] ++
          [⟨"assistant", concatStrings ds, chat.Config.Model⟩] }] := by
  have hdrain := drain_clean chat.ID chat.UserID ds "" [] []
  simp only [String.empty_append, List.nil_append] at hdrain
  simp [Execute, newMessage, addMessage, hfind, hmsg, hadd, hcs, hsave, hstream,
        hdrain, List.append_assoc]

/-- C1 witness: concrete run with deltas "He" and "llo". -/
theorem C1_witness :
    (Execute wEnvBase wInput).1 =
      .ok ⟨wInput.ChatID, wChat.UserID, concatStrings ["He", "llo"]⟩ ∧
    (Execute wEnvBase wInput).2.saveCalls =
      [{ wChat with Messages := wChat.Messages ++
          [⟨"user", wInput.UserMessage, wChat.Config.Model⟩] ++
          [⟨"assistant", concatStrings ["He", "llo"], wChat.Config.Model⟩] }] :=
  C1_final_content_is_delta_concat wEnvBase wInput wChat ["He", "llo"]
    rfl (fun _ _ _ => rfl) (fun _ _ => rfl) rfl rfl rfl

/-- C7: for every execution in which the conversation lookup fails with an
error other than the not-found sentinel, `Execute` returns the error
prefixed with "error fetching existing chat: ", the provider is never
invoked, and neither create nor save is called on the store. -/
theorem C7_lookup_error_aborts
    (env : Env) (input : ChatCompletionInputDTO) (e : String)
    (hfind : env.findChat = .error e)
    (hne : e ≠ "chat not found") :
    Execute env input =
      (.err ("error fetching existing chat: " ++ e), ⟨[], none, [], []⟩) := by
  simp [Execute, hfind, hne]


/-- C7 witness: concrete lookup fault "boom". -/
theorem C7_witness :
    Execute wEnvFindErr wInput =
      (.err ("error fetching existing chat: " ++ "boom"), ⟨[], none, [], []⟩) :=
  C7_lookup_error_aborts wEnvFindErr wInput "boom" rfl (by decide)

/-- C2: the sequence of records sent to the sink grows by string prefix:
the first emitted content equals the first delta, and each later content
equals the previous content concatenated with the next delta. -/
theorem C2_emitted_prefix_growth
    (env : Env) (input : ChatCompletionInputDTO) (chat : Chat)
    (ds : List String)
    (hfind : env.findChat = .ok chat)
    (hmsg : ∀ r c m, env.newMessageErr r c m = none)
    (hadd : ∀ c m, env.addMessageErr c m = none)
    (hcs : env.createStreamErr = none)
    (hstream : env.stream = ds.map mkFrag ++ [.eof]) :
    ((Execute env input).2.emitted.map (fun r => r.Content)).length = ds.length ∧
    (0 < ds.length →
      ((Execute env input).2.emitted.map (fun r => r.Content))[0]! = ds[0]!) ∧
    ∀ k, k + 1 < ds.length →
      ((Execute env input).2.emitted.map (fun r => r.Content))[k + 1]! =
        ((Execute env input).2.emitted.map (fun r => r.Content))[k]! ++ ds[k + 1]! := by
  have hdrain := drain_clean chat.ID chat.UserID ds "" [] []
  simp only [String.empty_append, List.nil_append] at hdrain
  have hemit : (Execute env input).2.emitted = cumulOuts chat.ID chat.UserID "" ds := by
    cases hsv : env.saveChatErr <;>
      simp [Execute, newMessage, addMessage, hfind, hmsg, hadd, hcs, hstream,
            hdrain, hsv]
  rw [hemit, cumulOuts_map_content]
  refine ⟨cumulStrs_length ds "", fun h0 => ?_, fun k hk => cumulStrs_step ds "" k hk⟩
  rw [cumulStrs_head ds "" h0, String.empty_append]

/-- C2 witness: concrete run with deltas "He" and "llo". -/
theorem C2_witness :
    ((Execute wEnvBase wInput).2.emitted.map (fun r => r.Content)).length =
      (["He", "llo"] : List String).length ∧
    (0 < (["He", "llo"] : List String).length →
      ((Execute wEnvBase wInput).2.emitted.map (fun r => r.Content))[0]! =
        (["He", "llo"] : List String)[0]!) ∧
    ∀ k, k + 1 < (["He", "llo"] : List String).length →
      ((Execute wEnvBase wInput).2.emitted.map (fun r => r.Content))[k + 1]! =
        ((Execute wEnvBase wInput).2.emitted.map (fun r => r.Content))[k]! ++
          (["He", "llo"] : List String)[k + 1]! :=
  C2_emitted_prefix_growth wEnvBase wInput wChat ["He", "llo"]
    rfl (fun _ _ _ => rfl) (fun _ _ => rfl) rfl rfl

/-- C5: a receive error mid-stream makes `Execute` return the error with
the "error straming response: " prefix (spelling from the source), and the
store's save operation is never invoked in that execution. -/
theorem C5_recv_error_no_save
    (env : Env) (input : ChatCompletionInputDTO) (chat : Chat)
    (ds : List String) (e : String) (rest : List RecvResult)
    (hfind : env.findChat = .ok chat)
    (hmsg : ∀ r c m, env.newMessageErr r c m = none)
    (hadd : ∀ c m, env.addMessageErr c m = none)
    (hcs : env.createStreamErr = none)
    (hstream : env.stream = ds.map mkFrag ++ (.recvErr e :: rest)) :
    (Execute env input).1 = .err ("error straming response: " ++ e) ∧
    (Execute env input).2.saveCalls = [] := by
  have hdrain := drain_recvErr chat.ID chat.UserID ds "" [] e rest
  simp only [List.nil_append] at hdrain
  simp [Execute, newMessage, addMessage, hfind, hmsg, hadd, hcs, hstream, hdrain]


/-- C5 witness: concrete receive fault after one fragment. -/
theorem C5_witness :
    (Execute wEnvRecvErr wInput).1 =
      .err ("error straming response: " ++ "conn reset") ∧
    (Execute wEnvRecvErr wInput).2.saveCalls = [] :=
  C5_recv_error_no_save wEnvRecvErr wInput wChat ["He"] "conn reset" []
    rfl (fun _ _ _ => rfl) (fun _ _ => rfl) rfl rfl

/-- C3 (code bug): at a configuration whose presence penalty (raw bits 30)
differs from its frequency penalty (raw bits 40), the provider request
carries the presence-penalty value in its frequency-penalty field —
completion.go line 99 populates `FrequencyPenalty` from
`chat.Config.PresencePenalty`. -/
theorem C3_frequency_penalty_mismatch :
    ∃ req : ChatCompletionRequest,
      (Execute wEnvBase wInput).2.providerReq = some req ∧
      req.FrequencyPenalty = wChat.Config.PresencePenalty ∧
      req.FrequencyPenalty ≠ wChat.Config.FrequencyePenalty := by
  refine ⟨_, rfl, rfl, ?_⟩
  decide

/-- C4 counterexample: the request `Execute` builds has its streaming-mode
flag set to `false` (completion.go line 100), refuting "the request's
streaming mode is enabled". -/
theorem C4_counterexample :
    ∃ req : ChatCompletionRequest,
      (Execute wEnvBase wInput).2.providerReq = some req ∧
      req.Stream ≠ true := by
  refine ⟨_, rfl, ?_⟩
  decide

/-- C4 (amended): `Execute` issues the provider call through the
streaming-completion operation and consumes the result as a stream of
fragments until the clean end-of-stream signal, but the streaming-mode
field of the request it builds is `false`. -/
theorem C4_stream_flag_false_but_streamed
    (env : Env) (input : ChatCompletionInputDTO) (chat : Chat)
    (ds : List String)
    (hfind : env.findChat = .ok chat)
    (hmsg : ∀ r c m, env.newMessageErr r c m = none)
    (hadd : ∀ c m, env.addMessageErr c m = none)
    (hcs : env.createStreamErr = none)
    (hstream : env.stream = ds.map mkFrag ++ [.eof])
    (hsave : env.saveChatErr = none) :
    (Execute env input).2.providerReq.map (fun r => r.Stream) = some false ∧
    (Execute env input).1 = .ok ⟨input.ChatID, chat.UserID, concatStrings ds⟩ := by
  have hdrain := drain_clean chat.ID chat.UserID ds "" [] []
  simp only [String.empty_append, List.nil_append] at hdrain
  constructor <;>
    simp [Execute, newMessage, addMessage, hfind, hmsg, hadd, hcs, hsave,
          hstream, hdrain]

/-- C4 witness: concrete clean run, stream flag false. -/
theorem C4_witness :
    (Execute wEnvBase wInput).2.providerReq.map (fun r => r.Stream) = some false ∧
    (Execute wEnvBase wInput).1 =
      .ok ⟨wInput.ChatID, wChat.UserID, concatStrings ["He", "llo"]⟩ :=
  C4_stream_flag_false_but_streamed wEnvBase wInput wChat ["He", "llo"]
    rfl (fun _ _ _ => rfl) (fun _ _ => rfl) rfl rfl rfl

/-- C6: for an input whose conversation ID has no existing record,
`Execute` invokes the store's create operation exactly once, with a new
conversation whose entire message list is the single system message
carrying the configured `InitialSystemMessage` text (so the user turn has
not yet been appended at creation time). -/
theorem C6_not_found_creates_seeded_chat
    (env : Env) (input : ChatCompletionInputDTO)
    (hfind : env.findChat = .error "chat not found")
    (hmsg : ∀ r c m, env.newMessageErr r c m = none)
    (hnew : env.newChatErr = none)
    (hcreate : env.createChatErr = none) :
    (Execute env input).2.createCalls =
      [⟨env.freshChatID, input.UserID,
        [⟨"system", input.Config.InitialSystemMessage,
          ⟨input.Config.Model, input.Config.ModelMaxToken⟩⟩],
        ⟨input.Config.Temperature, input.Config.TopP, input.Config.N,
         input.Config.Stop, input.Config.MaxTokens,
         input.Config.PresencePenalty, input.Config.FrequencyePenalty,
         ⟨input.Config.Model, input.Config.ModelMaxToken⟩⟩⟩] := by
  simp only [Execute, createNewChat, newMessage, addMessage, hfind, hmsg, hnew,
             hcreate, eq_self_iff_true, if_true]
  repeat' split
  all_goals simp


/-- C6 witness: concrete not-found run. -/
theorem C6_witness :
    (Execute wEnvNew wInput).2.createCalls =
      [⟨wEnvNew.freshChatID, wInput.UserID,
        [⟨"system", wInput.Config.InitialSystemMessage,
          ⟨wInput.Config.Model, wInput.Config.ModelMaxToken⟩⟩],
        ⟨wInput.Config.Temperature, wInput.Config.TopP, wInput.Config.N,
         wInput.Config.Stop, wInput.Config.MaxTokens,
         wInput.Config.PresencePenalty, wInput.Config.FrequencyePenalty,
         ⟨wInput.Config.Model, wInput.Config.ModelMaxToken⟩⟩⟩] :=
  C6_not_found_creates_seeded_chat wEnvNew wInput
    rfl (fun _ _ _ => rfl) rfl rfl

/-- C8: the provider request's message list is exactly the conversation's
message list after the user turn was appended, in order, with each entry
keeping the source message's role and content. -/
theorem C8_request_preserves_messages
    (env : Env) (input : ChatCompletionInputDTO) (chat : Chat)
    (hfind : env.findChat = .ok chat)
    (hmsg : ∀ r c m, env.newMessageErr r c m = none)
    (hadd : ∀ c m, env.addMessageErr c m = none) :
    (Execute env input).2.providerReq.map (fun r => r.Messages) =
      some ((chat.Messages ++
          [(⟨"user", input.UserMessage, chat.Config.Model⟩ : Message)]).map
        (fun m => (⟨m.Role, m.Content⟩ : ChatCompletionMessage))) := by
  simp only [Execute, newMessage, addMessage, hfind, hmsg, hadd]
  repeat' split
  all_goals simp

/-- C8 witness: concrete run; the request history is the system message,
then the user turn. -/
theorem C8_witness :
    (Execute wEnvBase wInput).2.providerReq.map (fun r => r.Messages) =
      some ((wChat.Messages ++
          [(⟨"user", wInput.UserMessage, wChat.Config.Model⟩ : Message)]).map
        (fun m => (⟨m.Role, m.Content⟩ : ChatCompletionMessage))) :=
  C8_request_preserves_messages wEnvBase wInput wChat
    rfl (fun _ _ _ => rfl) (fun _ _ => rfl)

/-- C9: on success the returned `ChatID` is the input's `ChatID` while the
returned `UserID` and the IDs on every sink record come from the resolved
conversation entity; when the conversation was created in this call, the
sink records carry the new entity's own fresh ID (whatever the entity
layer chose, independently of the input's `ChatID`) and its user ID. -/
theorem C9_id_provenance :
    (∀ (env : Env) (input : ChatCompletionInputDTO) (chat : Chat)
       (ds : List String),
       env.findChat = .ok chat →
       (∀ r c m, env.newMessageErr r c m = none) →
       (∀ c m, env.addMessageErr c m = none) →
       env.createStreamErr = none →
       env.stream = ds.map mkFrag ++ [.eof] →
       env.saveChatErr = none →
       (Execute env input).1 = .ok ⟨input.ChatID, chat.UserID, concatStrings ds⟩ ∧
       ∀ r ∈ (Execute env input).2.emitted,
         r.ChatID = chat.ID ∧ r.UserID = chat.UserID) ∧
    (∀ (env : Env) (input : ChatCompletionInputDTO) (ds : List String),
       env.findChat = .error "chat not found" →
       (∀ r c m, env.newMessageErr r c m = none) →
       (∀ c m, env.addMessageErr c m = none) →
       env.newChatErr = none →
       env.createChatErr = none →
       env.createStreamErr = none →
       env.stream = ds.map mkFrag ++ [.eof] →
       env.saveChatErr = none →
       (Execute env input).1 = .ok ⟨input.ChatID, input.UserID, concatStrings ds⟩ ∧
       ∀ r ∈ (Execute env input).2.emitted,
         r.ChatID = env.freshChatID ∧ r.UserID = input.UserID) := by
  constructor
  · intro env input chat ds hfind hmsg hadd hcs hstream hsave
    have hdrain := drain_clean chat.ID chat.UserID ds "" [] []
    simp only [String.empty_append, List.nil_append] at hdrain
    have hemit : (Execute env input).2.emitted =
        cumulOuts chat.ID chat.UserID "" ds := by
      simp [Execute, newMessage, addMessage, hfind, hmsg, hadd, hcs, hstream,
            hsave, hdrain]
    refine ⟨?_, ?_⟩
    · simp [Execute, newMessage, addMessage, hfind, hmsg, hadd, hcs, hstream,
            hsave, hdrain]
    · rw [hemit]
      exact fun r hr => cumulOuts_ids chat.ID chat.UserID ds "" r hr
  · intro env input ds hfind hmsg hadd hnew hcreate hcs hstream hsave
    have hdrain := drain_clean env.freshChatID input.UserID ds "" [] []
    simp only [String.empty_append, List.nil_append] at hdrain
    have hemit : (Execute env input).2.emitted =
        cumulOuts env.freshChatID input.UserID "" ds := by
      simp [Execute, createNewChat, newMessage, addMessage, hfind, hmsg, hadd,
            hnew, hcreate, hcs, hstream, hsave, hdrain]
    refine ⟨?_, ?_⟩
    · simp [Execute, createNewChat, newMessage, addMessage, hfind, hmsg, hadd,
            hnew, hcreate, hcs, hstream, hsave, hdrain]
    · rw [hemit]
      exact fun r hr => cumulOuts_ids env.freshChatID input.UserID ds "" r hr

/-- C9 witness: concrete runs for the existing-chat and new-chat cases. -/
theorem C9_witness :
    ((Execute wEnvBase wInput).1 =
        .ok ⟨wInput.ChatID, wChat.UserID, concatStrings ["He", "llo"]⟩ ∧
     ∀ r ∈ (Execute wEnvBase wInput).2.emitted,
       r.ChatID = wChat.ID ∧ r.UserID = wChat.UserID) ∧
    ((Execute wEnvNew wInput).1 =
        .ok ⟨wInput.ChatID, wInput.UserID, concatStrings ["He", "llo"]⟩ ∧
     ∀ r ∈ (Execute wEnvNew wInput).2.emitted,
       r.ChatID = wEnvNew.freshChatID ∧ r.UserID = wInput.UserID) :=
  ⟨C9_id_provenance.1 wEnvBase wInput wChat ["He", "llo"]
     rfl (fun _ _ _ => rfl) (fun _ _ => rfl) rfl rfl rfl,
   C9_id_provenance.2 wEnvNew wInput ["He", "llo"]
     rfl (fun _ _ _ => rfl) (fun _ _ => rfl) rfl rfl rfl rfl rfl⟩


/-- The drain loop never reaches the out-of-bounds access when every
fragment in the stream carries at least one choice. -/
theorem drain_no_panic (cid uid : String) :
    ∀ (rs : List RecvResult) (s : String) (acc : List ChatCompletionOutputDTO),
      (∀ r : ChatCompletionStreamResponse, .frag r ∈ rs → r.Choices ≠ []) →
      (drain cid uid s acc rs).isPanicked = false
  | [], _, _, _ => rfl
  | .eof :: _, _, _, _ => rfl
  | .recvErr e :: _, _, _, _ => rfl
  | .frag r :: rest, s, acc, h => by
    have hr : r.Choices ≠ [] := h r (List.mem_cons_self _ _)
    match hc : r.Choices with
    | [] => exact absurd hc hr
    | c :: cs =>
      simp only [drain, hc]
      exact drain_no_panic cid uid rest (s ++ c.Delta.Content)
        (acc ++ [ChatCompletionOutputDTO.mk cid uid (s ++ c.Delta.Content)])
        (fun r2 h2 => h r2 (List.mem_cons_of_mem _ h2))

/-- C10: the drain loop indexes the first choice of each fragment without
an emptiness guard: a fragment with an empty choice list makes `Execute`
end in the out-of-bounds panic, while under the precondition that every
fragment carries at least one choice the access never goes out of
bounds. -/
theorem C10_unguarded_first_choice :
    (∀ (env : Env) (input : ChatCompletionInputDTO) (chat : Chat)
       (ds : List String) (rest : List RecvResult),
       env.findChat = .ok chat →
       (∀ r c m, env.newMessageErr r c m = none) →
       (∀ c m, env.addMessageErr c m = none) →
       env.createStreamErr = none →
       env.stream = ds.map mkFrag ++ (.frag ⟨[]⟩ :: rest) →
       (Execute env input).1 = .panicked) ∧
    (∀ (cid uid s : String) (acc : List ChatCompletionOutputDTO)
       (rs : List RecvResult),
       (∀ r : ChatCompletionStreamResponse, .frag r ∈ rs → r.Choices ≠ []) →
       (drain cid uid s acc rs).isPanicked = false) := by
  constructor
  · intro env input chat ds rest hfind hmsg hadd hcs hstream
    have hdrain := drain_emptyChoices chat.ID chat.UserID ds "" [] rest
    simp only [List.nil_append] at hdrain
    simp [Execute, newMessage, addMessage, hfind, hmsg, hadd, hcs, hstream,
          hdrain]
  · exact fun cid uid s acc rs h => drain_no_panic cid uid rs s acc h


/-- C10 witness: a concrete empty-choice fragment panics; a concrete
well-formed stream does not. -/
theorem C10_witness :
    (Execute wEnvPanic wInput).1 = .panicked ∧
    (drain "c" "u" "" [] [mkFrag "x", .eof]).isPanicked = false :=
  ⟨C10_unguarded_first_choice.1 wEnvPanic wInput wChat [] []
     rfl (fun _ _ _ => rfl) (fun _ _ => rfl) rfl rfl,
   C10_unguarded_first_choice.2 "c" "u" "" [] [mkFrag "x", .eof]
     (by
       intro r hr
       simp [mkFrag] at hr
       subst hr
       simp)⟩

end ChatService
